import Mathlib

set_option maxRecDepth 40000

/-!
Shallow embedding of the credit-approval engine (`credit/services.py`,
`credit/views.py`, `credit/tasks.py`).

Modelling conventions:
* Python `float` values are modelled as `ℚ` (the code only performs field
  arithmetic on them), Python `int` values as `ℤ`.
* Python's built-in `round` rounds half to even; it is embedded as `pyRound`.
* Python's `int(x)` truncates toward zero; it is embedded as `pyInt`.
* Python code that can raise an exception is embedded with `Option`
  (`none` = an exception propagates): float division by zero raises
  `ZeroDivisionError`, so `calculate_emi` returns `Option ℚ` and
  `evaluate_eligibility` propagates the failure.
* A date is a calendar year together with a position inside the year,
  ordered lexicographically; this supports the two uses the code makes of
  dates (comparison with "today" and extraction of the calendar year).
* The per-customer database rows of `Loan` are modelled as a list stored on
  the customer record; the ORM aggregates (`count`, `Sum`, filters) become
  list operations.  The sequential local variables of
  `compute_credit_score` are rendered as one definition per scoring factor,
  combined exactly as in the source.
-/

namespace Credit

/-- A calendar date: the year and the day position within the year. -/
structure Date where
  year : ℤ
  doy : ℤ
deriving DecidableEq, Repr

/-- Date comparison `a ≤ b`, lexicographic on (year, day-of-year). -/
def Date.ble (a b : Date) : Bool :=
  decide (a.year < b.year) || (decide (a.year = b.year) && decide (a.doy ≤ b.doy))

/-- One row of the `Loan` table (`credit/models.py`). -/
structure Loan where
  loan_id : ℤ
  loan_amount : ℚ
  tenure : ℤ
  interest_rate : ℚ
  monthly_repayment : ℚ
  emis_paid_on_time : ℤ
  start_date : Option Date
  end_date : Option Date
deriving DecidableEq, Repr

/-- One row of the `Customer` table (`credit/models.py`), carrying its loans. -/
structure Customer where
  monthly_salary : ℤ
  approved_limit : ℤ
  current_debt : ℤ
  loans : List Loan
deriving DecidableEq, Repr

/-- Python's built-in `round` to an integer: round half to even. -/
def pyRound (q : ℚ) : ℤ :=
  let f := ⌊q⌋
  let frac := q - f
  if frac < 1/2 then f
  else if 1/2 < frac then f + 1
  else if f % 2 = 0 then f else f + 1

/-- Python's `int(x)` applied to a float: truncation toward zero. -/
def pyInt (q : ℚ) : ℤ :=
  if q < 0 then ⌈q⌉ else ⌊q⌋

/-- Constant `LAKH = 100000` (`services.py` line 8). -/
def LAKH : ℚ := 100000

/-- Function `round_to_lakh` (`services.py` lines 11-12):
`int(round(value / LAKH) * LAKH)`. -/
def round_to_lakh (value : ℚ) : ℤ :=
  pyRound (value / LAKH) * 100000

/-- Function `calculate_emi` (`services.py` lines 15-22).  `none` models the
`ZeroDivisionError` Python raises when `factor - 1 == 0`. -/
def calculate_emi (principal annual_rate : ℚ) (tenure_months : ℤ) : Option ℚ :=
  if tenure_months ≤ 0 then some 0
  else
    let monthly_rate := annual_rate / 100 / 12
    if monthly_rate = 0 then some (principal / (tenure_months : ℚ))
    else
      let factor := (1 + monthly_rate) ^ tenure_months.toNat
      if factor - 1 = 0 then none
      else some (principal * monthly_rate * factor / (factor - 1))

/-- The "current loan" predicate (`services.py` lines 25-29): `end_date` is
null or `end_date >= today`. -/
def is_current (today : Date) (l : Loan) : Bool :=
  match l.end_date with
  | none => true
  | some d => Date.ble today d

/-- Function `get_current_loans` (`services.py` lines 25-29). -/
def get_current_loans (today : Date) (c : Customer) : List Loan :=
  c.loans.filter (is_current today)

/-- Function `get_current_emi_sum` (`services.py` lines 32-36). -/
def get_current_emi_sum (today : Date) (c : Customer) : ℚ :=
  ((get_current_loans today c).map Loan.monthly_repayment).sum

/-- Function `get_current_debt_sum` (`services.py` lines 39-43). -/
def get_current_debt_sum (today : Date) (c : Customer) : ℚ :=
  ((get_current_loans today c).map Loan.loan_amount).sum

/-- Does the loan's start date fall in calendar year `y`
(the `start_date__year=current_year` ORM filter)? -/
def started_in_year (y : ℤ) (l : Loan) : Bool :=
  match l.start_date with
  | none => false
  | some d => decide (d.year = y)

/-- Local `total_emis` of `compute_credit_score` (`services.py` line 54). -/
def total_emis (c : Customer) : ℤ :=
  (c.loans.map Loan.tenure).sum

/-- Local `paid_on_time` of `compute_credit_score` (`services.py` line 55). -/
def paid_on_time (c : Customer) : ℤ :=
  (c.loans.map Loan.emis_paid_on_time).sum

/-- Local `on_time_ratio` of `compute_credit_score` (`services.py` line 56). -/
def on_time_rate (c : Customer) : ℚ :=
  if 0 < total_emis c then min ((paid_on_time c : ℚ) / (total_emis c : ℚ)) 1 else 0

/-- Local `loan_count_score` of `compute_credit_score` (`services.py` line 58). -/
def loan_count_score (c : Customer) : ℚ :=
  ((min (c.loans.length : ℤ) 10 : ℤ) : ℚ) / 10 * 15

/-- Local `current_year_score` of `compute_credit_score`
(`services.py` lines 60-62). -/
def current_year_score (today : Date) (c : Customer) : ℚ :=
  ((min ((c.loans.filter (started_in_year today.year)).length : ℤ) 5 : ℤ) : ℚ) / 5 * 15

/-- Local `volume_score` of `compute_credit_score` (`services.py` lines 64-66);
`customer.approved_limit or 1` replaces a zero limit (Python falsiness) by 1. -/
def volume_score (c : Customer) : ℚ :=
  min ((c.loans.map Loan.loan_amount).sum /
        (if c.approved_limit = 0 then 1 else (c.approved_limit : ℚ))) 1 * 20

/-- Local `score` of `compute_credit_score` (`services.py` line 68). -/
def raw_score (today : Date) (c : Customer) : ℚ :=
  on_time_rate c * 50 + loan_count_score c + current_year_score today c + volume_score c

/-- Function `compute_credit_score` (`services.py` lines 46-69). -/
def compute_credit_score (today : Date) (c : Customer) : ℤ :=
  if get_current_debt_sum today c > (c.approved_limit : ℚ) then 0
  else min (pyInt (raw_score today c)) 100

/-- Function `minimum_rate_for_score` (`services.py` lines 72-79). -/
def minimum_rate_for_score (score : ℤ) : Option ℚ :=
  if 50 < score then some 0
  else if 30 < score ∧ score ≤ 50 then some 12
  else if 10 < score ∧ score ≤ 30 then some 16
  else none

/-- The result dictionary of `evaluate_eligibility`. -/
structure EligibilityResult where
  score : ℤ
  approved : Bool
  corrected_rate : ℚ
deriving DecidableEq, Repr

/-- Function `evaluate_eligibility` (`services.py` lines 82-119).  `none`
models a propagated exception from `calculate_emi`. -/
def evaluate_eligibility (today : Date) (c : Customer)
    (loan_amount interest_rate : ℚ) (tenure : ℤ) : Option EligibilityResult :=
  let score := compute_credit_score today c
  match minimum_rate_for_score score with
  | none => some ⟨score, false, interest_rate⟩
  | some min_rate =>
    let corrected_rate := if 0 < min_rate ∧ interest_rate < min_rate then min_rate
                          else interest_rate
    match calculate_emi loan_amount corrected_rate tenure with
    | none => none
    | some new_emi =>
      let current_emi_sum := get_current_emi_sum today c
      let emi_limit : ℚ := (1/2) * (c.monthly_salary : ℚ)
      if current_emi_sum + new_emi > emi_limit then
        some ⟨score, false, corrected_rate⟩
      else if 0 < min_rate ∧ interest_rate < min_rate then
        some ⟨score, false, corrected_rate⟩
      else
        some ⟨score, true, corrected_rate⟩

/-- The ingestion reconciliation step for one customer
(`tasks.py` lines 85-87): overwrite the cached `current_debt` with
`int(get_current_debt_sum(customer))`. -/
def reconcile_customer (today : Date) (c : Customer) : Customer :=
  { c with current_debt := pyInt (get_current_debt_sum today c) }

/-- The reconciliation loop of `ingest_initial_data` (`tasks.py` lines 85-87)
over all persisted customers. -/
def ingest_reconcile (today : Date) (customers : List Customer) : List Customer :=
  customers.map (reconcile_customer today)

/-- One entry of the `view_loans_by_customer` response (`views.py` 216-227). -/
structure LoanItem where
  loan_id : ℤ
  loan_amount : ℚ
  interest_rate : ℚ
  monthly_installment : ℚ
  repayments_left : ℤ
deriving DecidableEq, Repr

/-- Python's `round(x, 2)`: round half to even at two decimal places. -/
def round2 (q : ℚ) : ℚ :=
  (pyRound (q * 100) : ℚ) / 100

/-- Function `view_loans_by_customer` (`views.py` lines 209-228): the current
loans of the customer, rendered as response entries. -/
def view_loans_by_customer (today : Date) (c : Customer) : List LoanItem :=
  (c.loans.filter (is_current today)).map fun l =>
    { loan_id := l.loan_id
      loan_amount := l.loan_amount
      interest_rate := l.interest_rate
      monthly_installment := round2 l.monthly_repayment
      repayments_left := max (l.tenure - l.emis_paid_on_time) 0 }

/-- Modelled from the spec: the rounding rule the spec claims for
`roundToNearestLakh` — `round(value / 100000) * 100000` with ties rounding
half UP (toward the larger multiple).  Compared against `round_to_lakh`,
which embeds what the code actually does. -/
def specRoundHalfUpLakh (value : ℚ) : ℤ :=
  ⌊value / 100000 + 1/2⌋ * 100000

/-- A date used to instantiate the theorems on concrete examples. -/
def exToday : Date := ⟨2024, 100⟩

/-- A date strictly before `exToday`, used for expired example loans. -/
def exPast : Date := ⟨2020, 1⟩

/-- Example customer with one fully repaid, expired loan; credit score 61. -/
def exRich : Customer :=
  { monthly_salary := 100000, approved_limit := 100000, current_debt := 0,
    loans := [⟨1, 50000, 12, 12, 4500, 12, none, some exPast⟩] }

/-- Example customer with a half-repaid, expired loan; credit score 36. -/
def exGood : Customer :=
  { monthly_salary := 100000, approved_limit := 100000, current_debt := 0,
    loans := [⟨1, 50000, 12, 12, 4500, 6, none, some exPast⟩] }

/-- Example customer like `exRich` but with a tiny salary, so that any new
EMI exceeds half the salary. -/
def exTight : Customer :=
  { monthly_salary := 10, approved_limit := 100000, current_debt := 0,
    loans := [⟨1, 50000, 12, 12, 4500, 12, none, some exPast⟩] }

/-- Example customer with no loans; credit score 0. -/
def exEmpty : Customer :=
  { monthly_salary := 1000, approved_limit := 100, current_debt := 0, loans := [] }

/-- Example customer whose current debt (500) exceeds the approved limit (100). -/
def exOver : Customer :=
  { monthly_salary := 1000, approved_limit := 100, current_debt := 0,
    loans := [⟨1, 500, 12, 10, 50, 12, none, none⟩] }

/-- Example customer with one current loan whose `emis_paid_on_time` (15)
exceeds its tenure (12). -/
def exView : Customer :=
  { monthly_salary := 1000, approved_limit := 100000, current_debt := 0,
    loans := [⟨7, 500, 12, 10, 50, 15, none, none⟩] }

/-- Example customer with one current loan of negative principal, driving the
volume factor far below zero. -/
def exNeg : Customer :=
  { monthly_salary := 50000, approved_limit := 100, current_debt := 0,
    loans := [⟨1, -1000000, 12, 12, 8885, 12, none, none⟩] }

/-- C2 (counterexample): at input 250000 — exactly halfway between 200000 and
300000 — the code rounds DOWN to the even multiple 200000, while the claimed
round-half-up rule yields 300000; the claim as stated is therefore false. -/
theorem round_to_lakh_not_half_up :
    round_to_lakh 250000 = 200000 ∧ specRoundHalfUpLakh 250000 = 300000 ∧
    round_to_lakh 250000 ≠ specRoundHalfUpLakh 250000 :=
  ⟨by with_unfolding_all decide, by with_unfolding_all decide, by with_unfolding_all decide⟩

/-- C2 (amended): `round_to_lakh` computes `round(value / 100000) * 100000`
where ties round half to EVEN (Python's `round`): a value exactly halfway
between two multiples of 100000 rounds to the multiple with even quotient.
In particular `round_to_lakh 150000 = 200000`, `round_to_lakh 149999 =
100000`, `round_to_lakh 100000 = 100000`, and `round_to_lakh 250000 =
200000`. -/
theorem round_to_lakh_ties_to_even :
    (∀ k : ℤ, round_to_lakh ((k : ℚ) * 100000 + 50000) =
      (if k % 2 = 0 then k else k + 1) * 100000) ∧
    round_to_lakh 150000 = 200000 ∧ round_to_lakh 149999 = 100000 ∧
    round_to_lakh 100000 = 100000 ∧ round_to_lakh 250000 = 200000 := by
  refine ⟨?_, by with_unfolding_all decide, by with_unfolding_all decide, by with_unfolding_all decide, by with_unfolding_all decide⟩
  intro k
  have hdiv : ((k : ℚ) * 100000 + 50000) / LAKH = (k : ℚ) + 1/2 := by
    rw [LAKH, div_eq_iff (by norm_num : (100000 : ℚ) ≠ 0)]
    ring
  have hfloor : ⌊(k : ℚ) + 1/2⌋ = k := by
    rw [add_comm, Int.floor_add_int]
    norm_num
  simp only [round_to_lakh, pyRound]
  rw [hdiv, hfloor]
  have hfrac : (k : ℚ) + 1/2 - (k : ℚ) = 1/2 := by ring
  rw [hfrac]
  norm_num

/-- C5: whenever the customer's current outstanding debt (sum of principal
over current loans) strictly exceeds the approved limit,
`compute_credit_score` returns 0 — the gate fires before any scoring factor,
so the result is 0 regardless of payment history. -/
theorem debt_gate_zero_score (today : Date) (c : Customer)
    (h : get_current_debt_sum today c > (c.approved_limit : ℚ)) :
    compute_credit_score today c = 0 := by
  unfold compute_credit_score
  rw [if_pos h]

/-- Witness for C5: a customer with current debt 500 and approved limit 100
scores 0. -/
theorem debt_gate_zero_score_witness :
    get_current_debt_sum exToday exOver > ((exOver.approved_limit : ℤ) : ℚ) ∧
    compute_credit_score exToday exOver = 0 :=
  ⟨by with_unfolding_all decide, debt_gate_zero_score exToday exOver (by with_unfolding_all decide)⟩

/-- C6: the score-tier boundaries of `minimum_rate_for_score` (51 ↦ 0.0,
50 and 31 ↦ 12.0, 30 and 11 ↦ 16.0, at most 10 ↦ no minimum), and for any
evaluation whose score is at most 10, `evaluate_eligibility` rejects outright
with the corrected rate equal to the requested rate and the score in the
result. -/
theorem reject_tier_outright (today : Date) (c : Customer) (amount rate : ℚ)
    (tenure : ℤ) (h : compute_credit_score today c ≤ 10) :
    minimum_rate_for_score 51 = some 0 ∧
    minimum_rate_for_score 50 = some 12 ∧
    minimum_rate_for_score 31 = some 12 ∧
    minimum_rate_for_score 30 = some 16 ∧
    minimum_rate_for_score 11 = some 16 ∧
    (∀ s : ℤ, s ≤ 10 → minimum_rate_for_score s = none) ∧
    evaluate_eligibility today c amount rate tenure =
      some ⟨compute_credit_score today c, false, rate⟩ := by
  have hnone : ∀ s : ℤ, s ≤ 10 → minimum_rate_for_score s = none := by
    intro s hs
    unfold minimum_rate_for_score
    rw [if_neg (by omega), if_neg (by omega), if_neg (by omega)]
  refine ⟨by with_unfolding_all decide, by with_unfolding_all decide, by with_unfolding_all decide, by with_unfolding_all decide, by with_unfolding_all decide, hnone, ?_⟩
  simp only [evaluate_eligibility, hnone _ h]

/-- Witness for C6: the customer with no loans scores 0 and is rejected
outright at the requested rate. -/
theorem reject_tier_outright_witness :
    minimum_rate_for_score 51 = some 0 ∧
    minimum_rate_for_score 50 = some 12 ∧
    minimum_rate_for_score 31 = some 12 ∧
    minimum_rate_for_score 30 = some 16 ∧
    minimum_rate_for_score 11 = some 16 ∧
    minimum_rate_for_score 10 = none ∧
    evaluate_eligibility exToday exEmpty 5000 9 12 =
      some ⟨compute_credit_score exToday exEmpty, false, 9⟩ := by
  have h := reject_tier_outright exToday exEmpty 5000 9 12 (by with_unfolding_all decide)
  exact ⟨h.1, h.2.1, h.2.2.1, h.2.2.2.1, h.2.2.2.2.1,
         h.2.2.2.2.2.1 10 (by norm_num), h.2.2.2.2.2.2⟩

/-- C8: running the ingestion reconciliation twice on unchanged loan data
leaves every customer's cached debt at the value stored by the first pass;
the pass changes no loan data and no credit score (no scoring side
effects). -/
theorem ingest_reconcile_idempotent (today : Date) (customers : List Customer) :
    ingest_reconcile today (ingest_reconcile today customers) =
      ingest_reconcile today customers ∧
    (ingest_reconcile today customers).map Customer.loans =
      customers.map Customer.loans ∧
    (ingest_reconcile today customers).map (compute_credit_score today) =
      customers.map (compute_credit_score today) := by
  refine ⟨?_, ?_, ?_⟩
  · unfold ingest_reconcile
    rw [List.map_map]
    congr 1
  · unfold ingest_reconcile
    rw [List.map_map]
    congr 1
  · unfold ingest_reconcile
    rw [List.map_map]
    congr 1

/-- C9: the straight-line branch of `calculate_emi` — at rate 0 and positive
tenure the EMI is exactly `principal / tenure`; at tenure ≤ 0 the EMI is 0
for every principal and rate. -/
theorem calculate_emi_base_cases :
    (∀ p : ℚ, ∀ t : ℤ, 0 < t → calculate_emi p 0 t = some (p / (t : ℚ))) ∧
    (∀ p r : ℚ, ∀ t : ℤ, t ≤ 0 → calculate_emi p r t = some 0) := by
  constructor
  · intro p t ht
    unfold calculate_emi
    rw [if_neg (by omega : ¬ t ≤ 0)]
    norm_num
  · intro p r t ht
    unfold calculate_emi
    rw [if_pos ht]

/-- Witness for C9: `calculate_emi 100 0 4 = 25` and `calculate_emi 5 7 0 =
0`. -/
theorem calculate_emi_base_cases_witness :
    calculate_emi 100 0 4 = some 25 ∧ calculate_emi 5 7 0 = some 0 := by
  constructor
  · have h := calculate_emi_base_cases.1 100 4 (by norm_num)
    rw [h]
    norm_num
  · exact calculate_emi_base_cases.2 5 7 0 (by norm_num)

/-- C10: every entry reported by `view_loans_by_customer` has
`repayments_left = max (tenure - emis_paid_on_time) 0`, hence never
negative, even when the recorded on-time EMI count exceeds the tenure. -/
theorem view_repayments_left_spec (today : Date) (c : Customer) :
    (∀ item ∈ view_loans_by_customer today c, 0 ≤ item.repayments_left) ∧
    (∀ l ∈ c.loans, is_current today l = true →
      ∃ item ∈ view_loans_by_customer today c,
        item.loan_id = l.loan_id ∧
        item.repayments_left = max (l.tenure - l.emis_paid_on_time) 0) := by
  constructor
  · intro item hitem
    unfold view_loans_by_customer at hitem
    obtain ⟨l, -, rfl⟩ := List.mem_map.mp hitem
    exact le_max_right _ _
  · intro l hl hcur
    exact ⟨_, List.mem_map_of_mem _ (List.mem_filter.mpr ⟨hl, hcur⟩), rfl, rfl⟩

/-- Witness for C10: the customer whose only loan has tenure 12 but 15 EMIs
paid on time gets a view entry with `repayments_left = 0`, not −3. -/
theorem view_repayments_left_spec_witness :
    0 ≤ (⟨7, 500, 10, 50, 0⟩ : LoanItem).repayments_left ∧
    (⟨7, 500, 10, 50, 0⟩ : LoanItem) ∈ view_loans_by_customer exToday exView :=
  ⟨(view_repayments_left_spec exToday exView).1 ⟨7, 500, 10, 50, 0⟩ (by with_unfolding_all decide),
   by with_unfolding_all decide⟩

/-- C1: when the score is above 10, the tier minimum rate is positive and the
requested rate is strictly below it, `evaluate_eligibility` rejects with the
corrected rate equal to the tier minimum — even when the combined-EMI limit
check at the corrected rate passes. -/
theorem below_minimum_rate_rejected (today : Date) (c : Customer)
    (amount rate m e : ℚ) (tenure : ℤ)
    (_hscore : 10 < compute_credit_score today c)
    (hm : minimum_rate_for_score (compute_credit_score today c) = some m)
    (hpos : 0 < m) (hlt : rate < m)
    (he : calculate_emi amount m tenure = some e)
    (hemi : get_current_emi_sum today c + e ≤ 1/2 * (c.monthly_salary : ℚ)) :
    evaluate_eligibility today c amount rate tenure =
      some ⟨compute_credit_score today c, false, m⟩ := by
  have hcond : 0 < m ∧ rate < m := ⟨hpos, hlt⟩
  simp only [evaluate_eligibility, hm, if_pos hcond, he,
    if_neg (not_lt.mpr hemi)]

/-- Witness for C1: a score-36 customer requesting rate 10 (below the tier
minimum 12) for a 10000-unit, 1-month loan is rejected with corrected rate
12 although the EMI check (10100 against a 50000 limit) passes. -/
theorem below_minimum_rate_rejected_witness :
    10 < compute_credit_score exToday exGood ∧
    get_current_emi_sum exToday exGood + 10100 ≤
      1/2 * (exGood.monthly_salary : ℚ) ∧
    evaluate_eligibility exToday exGood 10000 10 1 =
      some ⟨compute_credit_score exToday exGood, false, 12⟩ :=
  ⟨by with_unfolding_all decide, by with_unfolding_all decide,
   below_minimum_rate_rejected exToday exGood 10000 10 12 10100 1
     (by with_unfolding_all decide) (by with_unfolding_all decide)
     (by norm_num) (by norm_num) (by norm_num [calculate_emi])
     (by with_unfolding_all decide)⟩

/-- C7: when the score passes the tier gate and the current EMI commitments
plus the EMI of the new loan at the corrected rate strictly exceed half the
monthly salary, `evaluate_eligibility` rejects, reporting the corrected rate
as computed in the minimum-rate correction step. -/
theorem emi_limit_rejected (today : Date) (c : Customer)
    (amount rate m e : ℚ) (tenure : ℤ)
    (hm : minimum_rate_for_score (compute_credit_score today c) = some m)
    (he : calculate_emi amount (if 0 < m ∧ rate < m then m else rate) tenure
            = some e)
    (hemi : 1/2 * (c.monthly_salary : ℚ) < get_current_emi_sum today c + e) :
    evaluate_eligibility today c amount rate tenure =
      some ⟨compute_credit_score today c, false,
            if 0 < m ∧ rate < m then m else rate⟩ := by
  simp only [evaluate_eligibility, hm, he, if_pos hemi]

/-- Witness for C7: a score-61 customer with monthly salary 10 requesting a
10000-unit loan at rate 0 (EMI 1000, limit 5) is rejected with the corrected
rate equal to the requested rate. -/
theorem emi_limit_rejected_witness :
    1/2 * (exTight.monthly_salary : ℚ) < get_current_emi_sum exToday exTight + 1000 ∧
    evaluate_eligibility exToday exTight 10000 0 10 =
      some ⟨compute_credit_score exToday exTight, false,
            if 0 < (0 : ℚ) ∧ (0 : ℚ) < 0 then 0 else 0⟩ :=
  ⟨by with_unfolding_all decide,
   emi_limit_rejected exToday exTight 10000 0 0 1000 10
     (by with_unfolding_all decide) (by with_unfolding_all decide)
     (by with_unfolding_all decide)⟩

/-- C4 (counterexample): `evaluate_eligibility` can raise.  For the score-61
example customer, a requested rate of −2400 with tenure 2 is not corrected
(tier minimum is 0), the annuity factor `(1 + (−2400)/100/12)^2` equals 1
exactly, and the division by `factor − 1` raises `ZeroDivisionError`
(modelled as `none`); so the code does NOT terminate normally on every
numeric input. -/
theorem evaluate_eligibility_raises :
    calculate_emi 1000 (-2400) 2 = none ∧
    evaluate_eligibility exToday exRich 1000 (-2400) 2 = none :=
  ⟨by with_unfolding_all decide, by with_unfolding_all decide⟩

/-- Helper: the only minimum rates `minimum_rate_for_score` produces are 0,
12 and 16. -/
theorem minimum_rate_values (s : ℤ) (m : ℚ)
    (h : minimum_rate_for_score s = some m) : m = 0 ∨ m = 12 ∨ m = 16 := by
  unfold minimum_rate_for_score at h
  split at h
  · exact Or.inl (Option.some_injective ℚ h).symm
  · split at h
    · exact Or.inr (Or.inl (Option.some_injective ℚ h).symm)
    · split at h
      · exact Or.inr (Or.inr (Option.some_injective ℚ h).symm)
      · exact absurd h (by simp)

/-- Helper: `calculate_emi` succeeds whenever the annual rate is at least
−1200 (monthly rate at least −100%), because the annuity factor then cannot
equal 1 at a positive tenure. -/
theorem calculate_emi_isSome (p r : ℚ) (t : ℤ) (h : -1200 ≤ r) :
    (calculate_emi p r t).isSome = true := by
  unfold calculate_emi
  split
  · rfl
  next ht =>
    by_cases hmr : r / 100 / 12 = 0
    · rw [if_pos hmr]
      rfl
    · rw [if_neg hmr]
      have hm1 : (-1 : ℚ) ≤ r / 100 / 12 := by
        have hdd : r / 100 / 12 = r / 1200 := by ring
        rw [hdd, le_div_iff₀ (by norm_num : (0 : ℚ) < 1200)]
        linarith
      have hbase : (0 : ℚ) ≤ 1 + r / 100 / 12 := by linarith
      have hn : t.toNat ≠ 0 := by omega
      have hfac : (1 + r / 100 / 12) ^ t.toNat ≠ 1 := by
        rcases lt_trichotomy (1 + r / 100 / 12) 1 with hlt | heq | hgt
        · exact ne_of_lt (pow_lt_one₀ hbase hlt hn)
        · exact absurd (by linarith : r / 100 / 12 = 0) hmr
        · exact ne_of_gt (one_lt_pow₀ hgt hn)
      rw [if_neg (fun hz => hfac (by linarith [sub_eq_zero.mp hz]))]
      rfl

/-- C4 (amended): `evaluate_eligibility` terminates normally and returns a
result for every numeric input with requested annual rate at least −1200
(monthly rate at least −100%) — including zero and negative principal, rate,
tenure, salary and limit; the defined arithmetic branches (tenure ≤ 0 ↦ 0,
zero-rate straight line, annuity formula) cover all such cases.  Below
−1200 the annuity denominator can vanish and the code raises. -/
theorem evaluate_eligibility_total (today : Date) (c : Customer)
    (amount rate : ℚ) (tenure : ℤ) (h : -1200 ≤ rate) :
    (evaluate_eligibility today c amount rate tenure).isSome = true := by
  simp only [evaluate_eligibility]
  cases hm : minimum_rate_for_score (compute_credit_score today c) with
  | none => rfl
  | some m =>
    have hcorr : (-1200 : ℚ) ≤ if 0 < m ∧ rate < m then m else rate := by
      split
      · rcases minimum_rate_values _ _ hm with h0 | h0 | h0 <;> rw [h0] <;> norm_num
      · exact h
    have hsome := calculate_emi_isSome amount
      (if 0 < m ∧ rate < m then m else rate) tenure hcorr
    cases he : calculate_emi amount (if 0 < m ∧ rate < m then m else rate) tenure with
    | none => rw [he] at hsome; exact absurd hsome (by simp)
    | some e =>
      simp only [he]
      split
      · rfl
      · split
        · rfl
        · rfl

/-- Witness for C4 (amended): at the boundary rate −1200 the evaluation still
returns a result (the annuity factor is 0, the denominator −1). -/
theorem evaluate_eligibility_total_witness :
    (-1200 : ℚ) ≤ -1200 ∧
    (evaluate_eligibility exToday exRich 1000 (-1200) 2).isSome = true :=
  ⟨le_refl _, evaluate_eligibility_total exToday exRich 1000 (-1200) 2 (le_refl _)⟩

/-- C3 (counterexample): the score is NOT always in [0, 100] for arbitrary
numeric loan fields — a current loan with principal −1000000 against an
approved limit of 100 drives the volume factor to −200000 and the final
score to −199948. -/
theorem compute_credit_score_negative_example :
    compute_credit_score exToday exNeg = -199948 ∧
    ¬ (0 ≤ compute_credit_score exToday exNeg) :=
  ⟨by with_unfolding_all decide, by with_unfolding_all decide⟩

/-- C3 (amended): `compute_credit_score` truncates the raw weighted sum
toward zero and clamps at 100, so the result never exceeds 100 for any loan
history; and it is non-negative provided the approved limit and every loan's
principal and on-time EMI count are non-negative (for negative principals or
counts the score can be negative). -/
theorem compute_credit_score_bounds (today : Date) (c : Customer) :
    compute_credit_score today c ≤ 100 ∧
    ((0 ≤ c.approved_limit ∧
      ∀ l ∈ c.loans, 0 ≤ l.loan_amount ∧ 0 ≤ l.emis_paid_on_time) →
      0 ≤ compute_credit_score today c) := by
  constructor
  · unfold compute_credit_score
    split
    · norm_num
    · exact le_trans (min_le_right _ _) le_rfl
  · rintro ⟨hlim, hloans⟩
    have h1 : 0 ≤ on_time_rate c := by
      unfold on_time_rate
      split
      next hpos =>
        refine le_min (div_nonneg ?_ ?_) (by norm_num)
        · have : (0 : ℤ) ≤ paid_on_time c := by
            refine List.sum_nonneg ?_
            intro x hx
            obtain ⟨l, hl, rfl⟩ := List.mem_map.mp hx
            exact (hloans l hl).2
          exact_mod_cast this
        · exact_mod_cast le_of_lt hpos
      · exact le_rfl
    have h2 : 0 ≤ loan_count_score c := by
      unfold loan_count_score
      have hz : (0 : ℤ) ≤ min (c.loans.length : ℤ) 10 :=
        le_min (Int.natCast_nonneg _) (by norm_num)
      have hq : (0 : ℚ) ≤ ((min (c.loans.length : ℤ) 10 : ℤ) : ℚ) := by
        exact_mod_cast hz
      exact mul_nonneg (div_nonneg hq (by norm_num)) (by norm_num)
    have h3 : 0 ≤ current_year_score today c := by
      unfold current_year_score
      have hz : (0 : ℤ) ≤ min ((c.loans.filter (started_in_year today.year)).length : ℤ) 5 :=
        le_min (Int.natCast_nonneg _) (by norm_num)
      have hq : (0 : ℚ) ≤
          ((min ((c.loans.filter (started_in_year today.year)).length : ℤ) 5 : ℤ) : ℚ) := by
        exact_mod_cast hz
      exact mul_nonneg (div_nonneg hq (by norm_num)) (by norm_num)
    have h4 : 0 ≤ volume_score c := by
      unfold volume_score
      have hden : (0 : ℚ) ≤ (if c.approved_limit = 0 then 1 else (c.approved_limit : ℚ)) := by
        split
        · norm_num
        · exact_mod_cast hlim
      have hnum : (0 : ℚ) ≤ (c.loans.map Loan.loan_amount).sum := by
        refine List.sum_nonneg ?_
        intro x hx
        obtain ⟨l, hl, rfl⟩ := List.mem_map.mp hx
        exact (hloans l hl).1
      exact mul_nonneg (le_min (div_nonneg hnum hden) (by norm_num)) (by norm_num)
    have hraw : 0 ≤ raw_score today c := by
      unfold raw_score
      have h1' := mul_nonneg h1 (by norm_num : (0 : ℚ) ≤ 50)
      linarith
    unfold compute_credit_score
    split
    · exact le_rfl
    · refine le_min ?_ (by norm_num)
      unfold pyInt
      rw [if_neg (not_lt.mpr hraw)]
      exact Int.le_floor.mpr (by exact_mod_cast hraw)

/-- Witness for C3 (amended): the example customer with one non-negative,
fully repaid loan has a score inside [0, 100]. -/
theorem compute_credit_score_bounds_witness :
    compute_credit_score exToday exRich ≤ 100 ∧
    0 ≤ compute_credit_score exToday exRich :=
  ⟨(compute_credit_score_bounds exToday exRich).1,
   (compute_credit_score_bounds exToday exRich).2 (by with_unfolding_all decide)⟩

end Credit
